import Mathlib

/-!
# Verification of the mediasoup node control plane (resource graph, allocators, close cascade)

Shallow embedding of the TypeScript sources:
* `Transport` (src/unnamed/part_002): close cascade (`close`, `routerClosed`,
  `listenServerClosed`), `produce`, `consume`, `consumeData`, SCTP stream-id
  allocator, MID allocator, CNAME handling.
* `DataProducer` (src/unnamed/part_001): close ops and `send`.
* `PlainTransport` (src/unnamed/part_000): sctpState mirror on close.
* `RtpObserver`, `WebRtcServer`, `WebRtcTransport` (src/node/src/*).

Stateful methods become pure functions `state → result × state`; emitted events
(private lifecycle signals, public events, observer events, engine requests)
are returned as explicit event lists.  External collaborators (the `ortc`
negotiation module, uuid generation, the engine channel) are passed in as
oracle arguments, since their code is not part of this repository.
-/

/-- Transport kind tag: the TypeScript code dispatches on `this.constructor.name`
(`'PipeTransport'`, `'DirectTransport'`); the subclasses are WebRtc, Plain, Pipe
and Direct. -/
inductive TransportKind
  | webRtc
  | plain
  | pipe
  | direct
deriving DecidableEq, Repr

/-- A child resource owned by a Transport (Producer / Consumer / DataProducer /
DataConsumer) as far as the close cascade is concerned: its id and closed flag.
`transportClosed()` of `DataProducer` (src/unnamed/part_001, lines 243-262) sets
the closed flag; Producer / Consumer / DataConsumer are not under src/ and are
modelled from the spec: "closing an owner synchronously detaches and closes all
of its currently-owned children". -/
structure Child where
  cid : String
  closed : Bool
deriving DecidableEq, Repr

/-- The child's reaction to its owning transport closing: set the closed flag. -/
def Child.transportClosed (c : Child) : Child :=
  { c with closed := true }

/-- Events emitted by a Transport while closing, in emission order.
`engineCloseRequest` is the fire-and-forget `router.closeTransport` request;
`atClose` is the private `'@close'` signal; `atProducerClose` /
`atDataProducerClose` are the per-producer private signals toward the Router;
`atListenServerClose` is the private `'@listenserverclose'` signal;
`pubRouterClose` / `pubListenServerClose` are the public `'routerclose'` /
`'listenserverclose'` events; `observerClose` is the public observer `'close'`
event. -/
inductive TransportEvent
  | engineCloseRequest
  | atClose
  | atProducerClose (id : String)
  | atDataProducerClose (id : String)
  | atListenServerClose
  | pubRouterClose
  | pubListenServerClose
  | observerClose
deriving DecidableEq, Repr

/-- RTCP parameters: only the fields the control plane touches (`cname`), plus
`reducedSize` standing for the other fields preserved by `rtcp = rtcp || {}`. -/
structure RtcpParameters where
  cname : Option String
  reducedSize : Option Bool
deriving DecidableEq, Repr

/-- One RTP encoding entry; the default entry inserted by `produce()` is `{}`
(all fields absent), so a single optional field suffices. -/
structure RtpEncoding where
  ssrc : Option Nat
deriving DecidableEq, Repr

/-- RTP parameters as far as the Transport code manipulates them: `mid`,
`encodings` (absent / present list), `rtcp` and an opaque rest (`codecs`). -/
structure RtpParameters where
  mid : Option String
  codecs : List String
  encodings : Option (List RtpEncoding)
  rtcp : Option RtcpParameters
deriving DecidableEq, Repr

/-- The mutable state of a `Transport` instance (src/unnamed/part_002,
fields at lines 145-198): closed flag, the four child registries, the CNAME
for producers, the next MID counter, the SCTP stream-id buffer and cursor,
plus the transport kind and the `sctpParameters.MIS` value from the
subclass-provided data. -/
structure Transport where
  kind : TransportKind
  closed : Bool
  producers : List Child
  consumers : List Child
  dataProducers : List Child
  dataConsumers : List Child
  cnameForProducers : Option String
  nextMidForConsumers : Nat
  sctpParametersMIS : Option Nat
  sctpStreamIds : Option (List Bool)
  nextSctpStreamId : Nat
deriving DecidableEq, Repr

/-- Result of one of the three close triggers: the transport state afterwards,
the (now closed) children that were detached from the four registries, and the
events emitted by the transport, in order. -/
structure TransportCloseResult where
  state : Transport
  detachedProducers : List Child
  detachedConsumers : List Child
  detachedDataProducers : List Child
  detachedDataConsumers : List Child
  events : List TransportEvent
deriving DecidableEq, Repr

/-- `Transport.close()` (src/unnamed/part_002, lines 283-341): early-return if
closed; set the flag; issue the fire-and-forget engine close request; close and
detach every Producer (emitting `'@producerclose'` for each), Consumer,
DataProducer (emitting `'@dataproducerclose'` for each) and DataConsumer; emit
the private `'@close'`; emit the observer `'close'`. -/
def Transport.close (s : Transport) : TransportCloseResult :=
  if s.closed then
    ⟨s, [], [], [], [], []⟩
  else
    { state :=
        { s with
          closed := true
          producers := []
          consumers := []
          dataProducers := []
          dataConsumers := [] }
      detachedProducers := s.producers.map Child.transportClosed
      detachedConsumers := s.consumers.map Child.transportClosed
      detachedDataProducers := s.dataProducers.map Child.transportClosed
      detachedDataConsumers := s.dataConsumers.map Child.transportClosed
      events :=
        [TransportEvent.engineCloseRequest]
          ++ s.producers.map (fun p => TransportEvent.atProducerClose p.cid)
          ++ s.dataProducers.map (fun p => TransportEvent.atDataProducerClose p.cid)
          ++ [TransportEvent.atClose, TransportEvent.observerClose] }

/-- `Transport.routerClosed()` (src/unnamed/part_002, lines 349-402): same
teardown, but no engine request, no `'@close'`, no per-producer signals —
the Router already knows; it emits the public `'routerclose'` and the observer
`'close'`. -/
def Transport.routerClosed (s : Transport) : TransportCloseResult :=
  if s.closed then
    ⟨s, [], [], [], [], []⟩
  else
    { state :=
        { s with
          closed := true
          producers := []
          consumers := []
          dataProducers := []
          dataConsumers := [] }
      detachedProducers := s.producers.map Child.transportClosed
      detachedConsumers := s.consumers.map Child.transportClosed
      detachedDataProducers := s.dataProducers.map Child.transportClosed
      detachedDataConsumers := s.dataConsumers.map Child.transportClosed
      events := [TransportEvent.pubRouterClose, TransportEvent.observerClose] }

/-- `Transport.listenServerClosed()` (src/unnamed/part_002, lines 410-468):
same teardown; emits the private `'@listenserverclose'` (so the Router learns),
the public `'listenserverclose'`, and the observer `'close'`; no `'@close'`,
no per-producer signals, no engine request. -/
def Transport.listenServerClosed (s : Transport) : TransportCloseResult :=
  if s.closed then
    ⟨s, [], [], [], [], []⟩
  else
    { state :=
        { s with
          closed := true
          producers := []
          consumers := []
          dataProducers := []
          dataConsumers := [] }
      detachedProducers := s.producers.map Child.transportClosed
      detachedConsumers := s.consumers.map Child.transportClosed
      detachedDataProducers := s.dataProducers.map Child.transportClosed
      detachedDataConsumers := s.dataConsumers.map Child.transportClosed
      events :=
        [TransportEvent.atListenServerClose, TransportEvent.pubListenServerClose,
          TransportEvent.observerClose] }

/-- The three close triggers of a Transport. -/
inductive CloseTrigger
  | direct
  | router
  | listenServer
deriving DecidableEq, Repr

/-- Dispatch a close trigger to the corresponding Transport method. -/
def Transport.applyCloseTrigger : CloseTrigger → Transport → TransportCloseResult
  | CloseTrigger.direct, s => s.close
  | CloseTrigger.router, s => s.routerClosed
  | CloseTrigger.listenServer, s => s.listenServerClosed

/-- Events emitted by a `DataProducer`: the fire-and-forget
`transport.closeDataProducer` engine request, the private `'@close'`, the
public `'transportclose'`, and the observer `'close'`. -/
inductive DataProducerEvent
  | engineCloseRequest
  | atClose
  | pubTransportClose
  | observerClose
deriving DecidableEq, Repr

/-- Mutable state of a `DataProducer` (src/unnamed/part_001): the closed flag. -/
structure DataProducer where
  closed : Bool
deriving DecidableEq, Repr

/-- `DataProducer.close()` (src/unnamed/part_001, lines 212-236): early-return
if closed; set the flag; issue the engine close request; emit `'@close'` and
the observer `'close'`. -/
def DataProducer.close (s : DataProducer) : DataProducer × List DataProducerEvent :=
  if s.closed then
    (s, [])
  else
    ({ closed := true },
      [DataProducerEvent.engineCloseRequest, DataProducerEvent.atClose,
        DataProducerEvent.observerClose])

/-- `DataProducer.transportClosed()` (src/unnamed/part_001, lines 243-262):
early-return if closed; set the flag; emit the public `'transportclose'` and
the observer `'close'`; no engine request, no `'@close'`. -/
def DataProducer.transportClosed (s : DataProducer) : DataProducer × List DataProducerEvent :=
  if s.closed then
    (s, [])
  else
    ({ closed := true },
      [DataProducerEvent.pubTransportClose, DataProducerEvent.observerClose])

/-- The two closing operations of a DataProducer. -/
inductive DataProducerCloseTrigger
  | direct
  | transport
deriving DecidableEq, Repr

/-- Dispatch a DataProducer close trigger. -/
def DataProducer.applyCloseTrigger :
    DataProducerCloseTrigger → DataProducer → DataProducer × List DataProducerEvent
  | DataProducerCloseTrigger.direct, s => s.close
  | DataProducerCloseTrigger.transport, s => s.transportClosed

/-- Observer events emitted by an `RtpObserver`: `'close'`, `'pause'`,
`'resume'` (public observer channel), plus the private `'@close'` and the
public `'routerclose'`. -/
inductive RtpObserverEvent
  | engineCloseRequest
  | atClose
  | pubRouterClose
  | observerClose
  | observerPause
  | observerResume
deriving DecidableEq, Repr

/-- Mutable state of an `RtpObserver` (src/node/src/RtpObserver.ts): closed and
paused flags. -/
structure RtpObserver where
  closed : Bool
  paused : Bool
deriving DecidableEq, Repr

/-- `RtpObserver.close()` (src/node/src/RtpObserver.ts, lines 154-178). -/
def RtpObserver.close (s : RtpObserver) : RtpObserver × List RtpObserverEvent :=
  if s.closed then
    (s, [])
  else
    ({ s with closed := true },
      [RtpObserverEvent.engineCloseRequest, RtpObserverEvent.atClose,
        RtpObserverEvent.observerClose])

/-- `RtpObserver.routerClosed()` (src/node/src/RtpObserver.ts, lines 185-204). -/
def RtpObserver.routerClosed (s : RtpObserver) : RtpObserver × List RtpObserverEvent :=
  if s.closed then
    (s, [])
  else
    ({ s with closed := true },
      [RtpObserverEvent.pubRouterClose, RtpObserverEvent.observerClose])

/-- The two closing operations of an RtpObserver. -/
inductive RtpObserverCloseTrigger
  | direct
  | router
deriving DecidableEq, Repr

/-- Dispatch an RtpObserver close trigger. -/
def RtpObserver.applyCloseTrigger :
    RtpObserverCloseTrigger → RtpObserver → RtpObserver × List RtpObserverEvent
  | RtpObserverCloseTrigger.direct, s => s.close
  | RtpObserverCloseTrigger.router, s => s.routerClosed

/-- Result of `RtpObserver.pause()` / `resume()`: whether the engine request
resolved, the observer state afterwards, and the observer events emitted. -/
structure RtpObserverPauseResult where
  ok : Bool
  state : RtpObserver
  events : List RtpObserverEvent
deriving DecidableEq, Repr

/-- `RtpObserver.pause()` (src/node/src/RtpObserver.ts, lines 209-224):
remember `wasPaused`, await the `rtpObserver.pause` engine request (modelled by
the `reqOk` oracle; on rejection the method throws before touching `paused`),
set `paused = true`, and emit the observer `'pause'` only if not paused
before. -/
def RtpObserver.pause (s : RtpObserver) (reqOk : Bool) : RtpObserverPauseResult :=
  if reqOk then
    { ok := true
      state := { s with paused := true }
      events := if s.paused then [] else [RtpObserverEvent.observerPause] }
  else
    { ok := false, state := s, events := [] }

/-- `RtpObserver.resume()` (src/node/src/RtpObserver.ts, lines 229-244):
symmetric to `pause()`: on request success set `paused = false` and emit the
observer `'resume'` only if paused before. -/
def RtpObserver.resume (s : RtpObserver) (reqOk : Bool) : RtpObserverPauseResult :=
  if reqOk then
    { ok := true
      state := { s with paused := false }
      events := if s.paused then [RtpObserverEvent.observerResume] else [] }
  else
    { ok := false, state := s, events := [] }

/-- Events emitted by a `WebRtcServer`: its fire-and-forget
`worker.closeWebRtcServer` request, the private `'@close'`, the public
`'workerclose'`, and observer `'close'` / `'webrtctransportunhandled'`. -/
inductive WebRtcServerEvent
  | engineCloseRequest
  | atClose
  | pubWorkerClose
  | observerClose
  | observerTransportUnhandled (id : String)
deriving DecidableEq, Repr

/-- Mutable state of a `WebRtcServer` (src/node/src/WebRtcServer.ts): closed
flag and the non-owning registry of handled WebRtcTransports. -/
structure WebRtcServer where
  closed : Bool
  webRtcTransports : List Child
deriving DecidableEq, Repr

/-- `WebRtcServer.close()` (src/node/src/WebRtcServer.ts, lines 164-194):
early-return if closed; set the flag; issue the engine request; call
`listenServerClosed()` on every handled WebRtcTransport (emitting
`'webrtctransportunhandled'` for each) and clear the registry; emit `'@close'`
and the observer `'close'`. -/
def WebRtcServer.close (s : WebRtcServer) : WebRtcServer × List WebRtcServerEvent :=
  if s.closed then
    (s, [])
  else
    ({ closed := true, webRtcTransports := [] },
      [WebRtcServerEvent.engineCloseRequest]
        ++ s.webRtcTransports.map
            (fun t => WebRtcServerEvent.observerTransportUnhandled t.cid)
        ++ [WebRtcServerEvent.atClose, WebRtcServerEvent.observerClose])

/-- `WebRtcServer.workerClosed()` (src/node/src/WebRtcServer.ts, lines
201-220): early-return if closed; set the flag; clear the registry without
closing the transports (their Routers close them); emit the public
`'workerclose'` and the observer `'close'`. -/
def WebRtcServer.workerClosed (s : WebRtcServer) : WebRtcServer × List WebRtcServerEvent :=
  if s.closed then
    (s, [])
  else
    ({ closed := true, webRtcTransports := [] },
      [WebRtcServerEvent.pubWorkerClose, WebRtcServerEvent.observerClose])

/-- The two closing operations of a WebRtcServer. -/
inductive WebRtcServerCloseTrigger
  | direct
  | worker
deriving DecidableEq, Repr

/-- Dispatch a WebRtcServer close trigger. -/
def WebRtcServer.applyCloseTrigger :
    WebRtcServerCloseTrigger → WebRtcServer → WebRtcServer × List WebRtcServerEvent
  | WebRtcServerCloseTrigger.direct, s => s.close
  | WebRtcServerCloseTrigger.worker, s => s.workerClosed

/-- ICE state mirror (src/node/src/WebRtcTransport.ts, `IceState`). -/
inductive IceState
  | new
  | connected
  | completed
  | disconnected
  | closed
deriving DecidableEq, Repr

/-- DTLS state mirror (src/node/src/WebRtcTransport.ts, `DtlsState`). -/
inductive DtlsState
  | new
  | connecting
  | connected
  | failed
  | closed
deriving DecidableEq, Repr

/-- SCTP state mirror (src/unnamed/part_002, `SctpState`). -/
inductive SctpState
  | new
  | connecting
  | connected
  | failed
  | closed
deriving DecidableEq, Repr

/-- State of a `WebRtcTransport` (src/node/src/WebRtcTransport.ts): the base
Transport state plus the `iceState`, `iceSelectedTuple`, `dtlsState` and
`sctpState` mirrors of its `#data` (the tuple itself is opaque here). -/
structure WebRtcTransport where
  base : Transport
  iceState : IceState
  iceSelectedTuple : Option Unit
  dtlsState : DtlsState
  sctpState : Option SctpState
deriving DecidableEq, Repr

/-- The mirror updates shared by the three WebRtcTransport close triggers
(src/node/src/WebRtcTransport.ts, lines 339-346, 364-371, 388-395):
`iceState = 'closed'`, `iceSelectedTuple = undefined`, `dtlsState = 'closed'`,
and `sctpState = 'closed'` only if `sctpState` is set. -/
def WebRtcTransport.mirrorsToClosed (s : WebRtcTransport) : WebRtcTransport :=
  { s with
    iceState := IceState.closed
    iceSelectedTuple := none
    dtlsState := DtlsState.closed
    sctpState := s.sctpState.map (fun _ => SctpState.closed) }

/-- `WebRtcTransport.close()` (src/node/src/WebRtcTransport.ts, lines 332-349):
early-return if closed, force the mirrors to closed, then `super.close()`. -/
def WebRtcTransport.close (s : WebRtcTransport) : WebRtcTransport × TransportCloseResult :=
  if s.base.closed then
    (s, ⟨s.base, [], [], [], [], []⟩)
  else
    let s' := s.mirrorsToClosed
    let r := s'.base.close
    ({ s' with base := r.state }, r)

/-- `WebRtcTransport.routerClosed()` (src/node/src/WebRtcTransport.ts, lines
357-374): early-return if closed, force the mirrors to closed, then
`super.routerClosed()`. -/
def WebRtcTransport.routerClosed (s : WebRtcTransport) :
    WebRtcTransport × TransportCloseResult :=
  if s.base.closed then
    (s, ⟨s.base, [], [], [], [], []⟩)
  else
    let s' := s.mirrorsToClosed
    let r := s'.base.routerClosed
    ({ s' with base := r.state }, r)

/-- `WebRtcTransport.webRtcServerClosed()` (src/node/src/WebRtcTransport.ts,
lines 381-398): early-return if closed, force the mirrors to closed, then
`super.listenServerClosed()`. -/
def WebRtcTransport.webRtcServerClosed (s : WebRtcTransport) :
    WebRtcTransport × TransportCloseResult :=
  if s.base.closed then
    (s, ⟨s.base, [], [], [], [], []⟩)
  else
    let s' := s.mirrorsToClosed
    let r := s'.base.listenServerClosed
    ({ s' with base := r.state }, r)

/-- Dispatch a close trigger to the corresponding WebRtcTransport method. -/
def WebRtcTransport.applyCloseTrigger :
    CloseTrigger → WebRtcTransport → WebRtcTransport × TransportCloseResult
  | CloseTrigger.direct, s => s.close
  | CloseTrigger.router, s => s.routerClosed
  | CloseTrigger.listenServer, s => s.webRtcServerClosed

/-- State of a `PlainTransport` (src/unnamed/part_000): the base Transport
state plus the `sctpState` mirror of its `#data`. -/
structure PlainTransport where
  base : Transport
  sctpState : Option SctpState
deriving DecidableEq, Repr

/-- `PlainTransport.close()` (src/unnamed/part_000, lines 222-235):
early-return if closed, set `sctpState = 'closed'` if present, then
`super.close()`. -/
def PlainTransport.close (s : PlainTransport) : PlainTransport × TransportCloseResult :=
  if s.base.closed then
    (s, ⟨s.base, [], [], [], [], []⟩)
  else
    let s' := { s with sctpState := s.sctpState.map (fun _ => SctpState.closed) }
    let r := s'.base.close
    ({ s' with base := r.state }, r)

/-- `PlainTransport.routerClosed()` (src/unnamed/part_000, lines 243-256):
early-return if closed, set `sctpState = 'closed'` if present, then
`super.routerClosed()`. -/
def PlainTransport.routerClosed (s : PlainTransport) :
    PlainTransport × TransportCloseResult :=
  if s.base.closed then
    (s, ⟨s.base, [], [], [], [], []⟩)
  else
    let s' := { s with sctpState := s.sctpState.map (fun _ => SctpState.closed) }
    let r := s'.base.routerClosed
    ({ s' with base := r.state }, r)

/-- `PlainTransport` does not override `listenServerClosed()`: the inherited
`Transport.listenServerClosed()` (src/unnamed/part_002, lines 410-468) runs and
never touches the subclass `#data.sctpState` mirror. -/
def PlainTransport.listenServerClosed (s : PlainTransport) :
    PlainTransport × TransportCloseResult :=
  let r := s.base.listenServerClosed
  ({ s with base := r.state }, r)

/-- Dispatch a close trigger to the corresponding PlainTransport method. -/
def PlainTransport.applyCloseTrigger :
    CloseTrigger → PlainTransport → PlainTransport × TransportCloseResult
  | CloseTrigger.direct, s => s.close
  | CloseTrigger.router, s => s.routerClosed
  | CloseTrigger.listenServer, s => s.listenServerClosed

/-- The scan loop of `getNextSctpStreamId` (src/unnamed/part_002, lines
1052-1062): `for (idx = 0; idx < len; ++idx)` computes
`id = (next + idx) % len` and returns the first `id` whose slot is 0.
`fuel` is the number of remaining iterations (initially the buffer length);
a slot read out of range yields the default `true` (taken), which can only
happen for the empty buffer. -/
def sctpScan (ids : List Bool) (next : Nat) : Nat → Nat → Option Nat
  | _, 0 => none
  | idx, fuel + 1 =>
    let id := (next + idx) % ids.length
    if ids.getD id true then sctpScan ids next (idx + 1) fuel else some id

/-- `Transport.getNextSctpStreamId()` (src/unnamed/part_002, lines 1033-1065):
require a numeric `sctpParameters.MIS`; lazily create the stream-id buffer
(`Buffer.alloc(numStreams, 0)`); scan forward from the cursor; on success
advance the cursor to the returned id plus one; otherwise throw
`no sctpStreamId available`.  The state is returned in both branches because
the lazily created buffer persists on the instance. -/
def Transport.getNextSctpStreamId (s : Transport) : Except String Nat × Transport :=
  match s.sctpParametersMIS with
  | none => (Except.error "missing sctpParameters.MIS", s)
  | some numStreams =>
    let ids := s.sctpStreamIds.getD (List.replicate numStreams false)
    let s := { s with sctpStreamIds := some ids }
    match sctpScan ids s.nextSctpStreamId 0 ids.length with
    | some id => (Except.ok id, { s with nextSctpStreamId := id + 1 })
    | none => (Except.error "no sctpStreamId available", s)

/-- The allocation step of `consumeData()` (src/unnamed/part_002, lines
944-948): `sctpStreamId = this.getNextSctpStreamId()` followed by
`this.#sctpStreamIds![sctpStreamId] = 1`. -/
def Transport.allocSctpStreamId (s : Transport) : Except String Nat × Transport :=
  match s.getNextSctpStreamId with
  | (Except.ok id, s') =>
    (Except.ok id,
      { s' with sctpStreamIds := s'.sctpStreamIds.map (fun ids => ids.set id true) })
  | (Except.error e, s') => (Except.error e, s')

/-- The freeing step installed by `consumeData()` on the DataConsumer's
`'@close'` / `'@dataproducerclose'` handlers (src/unnamed/part_002, lines
995-1012): `this.#sctpStreamIds[sctpStreamId] = 0` when the buffer exists,
after removing the DataConsumer from the registry. -/
def Transport.freeSctpStreamId (s : Transport) (sctpStreamId : Nat) (cid : String) :
    Transport :=
  let s := { s with dataConsumers := s.dataConsumers.filter (fun c => c.cid ≠ cid) }
  match s.sctpStreamIds with
  | some ids => { s with sctpStreamIds := some (ids.set sctpStreamId false) }
  | none => s

/-- A DataConsumer as constructed by `consumeData()`: its id and, for
non-Direct transports, the claimed SCTP stream id. -/
structure DataConsumerModel where
  dataConsumerId : String
  sctpStreamId : Option Nat
deriving DecidableEq, Repr

deriving instance DecidableEq for Except

/-- Result of `consumeData()`: the outcome, the transport state afterwards and
the engine requests issued. -/
structure ConsumeDataOutcome where
  result : Except String DataConsumerModel
  state : Transport
  engineRequests : List String
deriving DecidableEq, Repr

/-- `Transport.consumeData()` (src/unnamed/part_002, lines 888-1018), reduced
to the control flow the claims are about: reject a missing `dataProducerId`;
resolve the DataProducer through the Router-supplied lookup; on a non-Direct
transport allocate an SCTP stream id (this may throw) and mark it taken; issue
the `transport.consumeData` engine request (`engineOk` oracle); register the
DataConsumer. -/
def Transport.consumeData (s : Transport) (dataProducerId : String)
    (getDataProducerById : String → Option Unit) (engineOk : Bool)
    (generatedId : String) : ConsumeDataOutcome :=
  if dataProducerId = "" then
    ⟨Except.error "missing dataProducerId", s, []⟩
  else
    match getDataProducerById dataProducerId with
    | none => ⟨Except.error "DataProducer not found", s, []⟩
    | some _ =>
      if s.kind ≠ TransportKind.direct then
        match s.allocSctpStreamId with
        | (Except.error e, s') => ⟨Except.error e, s', []⟩
        | (Except.ok sctpStreamId, s') =>
          if engineOk then
            ⟨Except.ok ⟨generatedId, some sctpStreamId⟩,
              { s' with dataConsumers := s'.dataConsumers ++ [⟨generatedId, false⟩] },
              ["transport.consumeData"]⟩
          else
            ⟨Except.error "engine request failed", s', ["transport.consumeData"]⟩
      else
        if engineOk then
          ⟨Except.ok ⟨generatedId, none⟩,
            { s with dataConsumers := s.dataConsumers ++ [⟨generatedId, false⟩] },
            ["transport.consumeData"]⟩
        else
          ⟨Except.error "engine request failed", s, ["transport.consumeData"]⟩

/-- JavaScript truthiness of the `rtpParameters.rtcp.cname` access used by
`produce()` (src/unnamed/part_002, line 590): present, a string, and not the
empty string. -/
def RtpParameters.truthyCname (p : RtpParameters) : Option String :=
  match p.rtcp with
  | some r =>
    match r.cname with
    | some c => if c = "" then none else some c
    | none => none
  | none => none

/-- The encodings normalization of `produce()` (src/unnamed/part_002, lines
574-582): a missing, non-array or empty `encodings` becomes `[ {} ]`. -/
def RtpParameters.normalizeEncodings (p : RtpParameters) : RtpParameters :=
  match p.encodings with
  | none => { p with encodings := some [{ ssrc := none }] }
  | some [] => { p with encodings := some [{ ssrc := none }] }
  | some _ => p

/-- Modelled from the spec: `ortc.getConsumableRtpParameters` (the
CapabilityNegotiator's `deriveConsumable`) is not under src/; per the spec it
is a pure transform producing the "router-normalized form of a Producer's
parameters used as the negotiation basis", whose encoding entries derive
one-for-one from the producer's (already normalized) encodings — the spec's
scenario: no encodings supplied, one default inserted, exactly one consumable
encoding entry results.  `mid` is a per-consumer negotiation artifact, absent
from consumable parameters. -/
def getConsumableRtpParameters (p : RtpParameters) : RtpParameters :=
  { mid := none
    codecs := p.codecs
    encodings := p.encodings
    rtcp := p.rtcp }

/-- The guard `id && this.#producers.has(id)` of `produce()` (src/unnamed/
part_002, line 558): an explicit, truthy (non-empty) id already registered. -/
def Transport.produceDuplicateCheck (s : Transport) (id : Option String) : Bool :=
  match id with
  | some i => decide (i ≠ "") && s.producers.any (fun p => p.cid = i)
  | none => false

/-- Failure modes of `produce()` in source order (src/unnamed/part_002, lines
558-627). -/
inductive ProduceError
  | duplicateId
  | invalidKind
  | invalidRtpParameters
  | mappingFailed
  | consumableFailed
  | engineRequestFailed
deriving DecidableEq, Repr

/-- A Producer as constructed by `produce()`: id, kind, the (rewritten) RTP
parameters and the derived consumable parameters. -/
structure ProducerModel where
  producerId : String
  kind : String
  rtpParameters : RtpParameters
  consumableRtpParameters : RtpParameters
deriving DecidableEq, Repr

/-- Result of `produce()`: the outcome, the transport state afterwards and the
engine requests issued. -/
structure ProduceOutcome where
  result : Except ProduceError ProducerModel
  state : Transport
  engineRequests : List String
deriving DecidableEq, Repr

/-- `Transport.produce()` (src/unnamed/part_002, lines 545-664).  In source
order: reject an explicit id already registered (`id && #producers.has(id)`,
an empty string id being falsy); reject a kind other than audio/video;
`ortc.validateRtpParameters` (oracle `validateOk`); normalize empty encodings;
unless this is a PipeTransport fix and overwrite the CNAME (first taking the
producer's own non-empty cname, else the generated random one); the ortc
mapping and consumable derivation (oracles `mappingOk`, `consumableOk`; the
consumable value itself is the spec-modelled transform); the
`transport.produce` engine request (oracle `engineOk`); register the Producer.
`generatedId` / `generatedCname` stand for the `uuidv4()` values. -/
def Transport.produce (s : Transport) (id : Option String) (kind : String)
    (rtpParameters : RtpParameters)
    (validateOk mappingOk consumableOk engineOk : Bool)
    (generatedId generatedCname : String) : ProduceOutcome :=
  if s.produceDuplicateCheck id then
    ⟨Except.error ProduceError.duplicateId, s, []⟩
  else if ¬(kind = "audio" ∨ kind = "video") then
    ⟨Except.error ProduceError.invalidKind, s, []⟩
  else if ¬validateOk then
    ⟨Except.error ProduceError.invalidRtpParameters, s, []⟩
  else
    let rtpParameters := rtpParameters.normalizeEncodings
    let cnameStep :=
      if s.kind ≠ TransportKind.pipe then
        let cname :=
          match s.cnameForProducers with
          | some c => c
          | none =>
            match rtpParameters.truthyCname with
            | some c => c
            | none => generatedCname
        let rtcp := rtpParameters.rtcp.getD { cname := none, reducedSize := none }
        ({ rtpParameters with rtcp := some { rtcp with cname := some cname } },
          { s with cnameForProducers := some cname })
      else
        (rtpParameters, s)
    let rtpParameters := cnameStep.1
    let s := cnameStep.2
    if ¬mappingOk then
      ⟨Except.error ProduceError.mappingFailed, s, []⟩
    else if ¬consumableOk then
      ⟨Except.error ProduceError.consumableFailed, s, []⟩
    else
      let consumableRtpParameters := getConsumableRtpParameters rtpParameters
      let producerId :=
        match id with
        | some i => if i = "" then generatedId else i
        | none => generatedId
      if ¬engineOk then
        ⟨Except.error ProduceError.engineRequestFailed, s, ["transport.produce"]⟩
      else
        ⟨Except.ok ⟨producerId, kind, rtpParameters, consumableRtpParameters⟩,
          { s with producers := s.producers ++ [⟨producerId, false⟩] },
          ["transport.produce"]⟩

/-- Failure modes of `consume()` in source order (src/unnamed/part_002, lines
671-762). -/
inductive ConsumeError
  | missingProducerId
  | invalidRtpCapabilities
  | producerNotFound
  | negotiationFailed
  | engineRequestFailed
deriving DecidableEq, Repr

/-- A Consumer as constructed by `consume()`: its id, the referenced producer
id and the negotiated RTP parameters (whose `mid` field `consume()` sets). -/
structure ConsumerModel where
  consumerId : String
  producerId : String
  rtpParameters : RtpParameters
deriving DecidableEq, Repr

/-- Result of `consume()`: the outcome, the transport state afterwards, the
engine requests issued, and whether the max-MID warning was logged. -/
structure ConsumeOutcome where
  result : Except ConsumeError ConsumerModel
  state : Transport
  engineRequests : List String
  warnedMaxMid : Bool
deriving DecidableEq, Repr

/-- `Transport.consume()` (src/unnamed/part_002, lines 671-797).  In source
order: reject a missing (empty) `producerId`; `ortc.validateRtpCapabilities`
(oracle `validateCapsOk`); resolve the Producer through the Router-supplied
lookup; `ortc.getConsumerRtpParameters` (oracle `negotiateOk`; the negotiated
parameters are spec-modelled from the producer's consumable parameters, since
ortc is not under src/); then the MID step: nothing for a pipe Consumer, the
caller's `mid` when truthy (non-empty), else the counter formatted as a string
with post-increment and the `=== 100000000` wrap-with-warning check; the
`transport.consume` engine request (oracle `engineOk`); register the
Consumer. -/
def Transport.consume (s : Transport) (producerId : String) (mid : Option String)
    (pipe : Bool) (validateCapsOk : Bool)
    (getProducerById : String → Option ProducerModel)
    (negotiateOk engineOk : Bool) (generatedConsumerId : String) : ConsumeOutcome :=
  if producerId = "" then
    ⟨Except.error ConsumeError.missingProducerId, s, [], false⟩
  else if ¬validateCapsOk then
    ⟨Except.error ConsumeError.invalidRtpCapabilities, s, [], false⟩
  else
    match getProducerById producerId with
    | none => ⟨Except.error ConsumeError.producerNotFound, s, [], false⟩
    | some producer =>
      if ¬negotiateOk then
        ⟨Except.error ConsumeError.negotiationFailed, s, [], false⟩
      else
        let rtpParameters := { getConsumableRtpParameters producer.rtpParameters with mid := none }
        let midStep :=
          if ¬pipe then
            match mid with
            | some m =>
              if m ≠ "" then
                (({ rtpParameters with mid := some m } : RtpParameters), s, false)
              else
                ({ rtpParameters with mid := some (toString s.nextMidForConsumers) },
                  { s with nextMidForConsumers :=
                      if s.nextMidForConsumers + 1 = 100000000 then 0
                      else s.nextMidForConsumers + 1 },
                  decide (s.nextMidForConsumers + 1 = 100000000))
            | none =>
              ({ rtpParameters with mid := some (toString s.nextMidForConsumers) },
                { s with nextMidForConsumers :=
                    if s.nextMidForConsumers + 1 = 100000000 then 0
                    else s.nextMidForConsumers + 1 },
                decide (s.nextMidForConsumers + 1 = 100000000))
          else
            (rtpParameters, s, false)
        let rtpParameters := midStep.1
        let s := midStep.2.1
        let warned := midStep.2.2
        if ¬engineOk then
          ⟨Except.error ConsumeError.engineRequestFailed, s, ["transport.consume"], warned⟩
        else
          ⟨Except.ok ⟨generatedConsumerId, producerId, rtpParameters⟩,
            { s with consumers := s.consumers ++ [⟨generatedConsumerId, false⟩] },
            ["transport.consume"], warned⟩

/-- A runtime value passed as `message` to `DataProducer.send()`: a string, a
Buffer (byte list), or anything else (the TypeScript runtime check admits
arbitrary values despite the `string | Buffer` annotation on the parameter). -/
inductive DataMessage
  | str (s : String)
  | buf (b : List Nat)
  | other
deriving DecidableEq, Repr

/-- Whether a message payload is empty (`message.length` is zero). -/
def DataMessage.isEmpty : DataMessage → Bool
  | DataMessage.str s => s.length == 0
  | DataMessage.buf b => b.length == 0
  | DataMessage.other => false

/-- `DataProducer.send()` (src/unnamed/part_001, lines 287-331): throw a
TypeError unless `message` is a string or a Buffer; when `ppid` is not a
number default it to 51 / 56 (non-empty / empty string) or 53 / 57
(non-empty / empty Buffer); then for ppid 56 replace the message by the
single-space string and for ppid 57 by `Buffer.alloc(1)` (one zero byte);
finally notify `dataProducer.send` on the payload channel with `String(ppid)`
and the message.  The returned pair is the payload-channel notification
(ppid sent, message sent). -/
def DataProducer.send (message : DataMessage) (ppid : Option Nat) :
    Except String (Nat × DataMessage) :=
  match message with
  | DataMessage.other => Except.error "message must be a string or a Buffer"
  | DataMessage.str s =>
    let p :=
      match ppid with
      | some p => p
      | none => if s.length > 0 then 51 else 56
    Except.ok (p,
      if p = 56 then DataMessage.str " "
      else if p = 57 then DataMessage.buf [0]
      else DataMessage.str s)
  | DataMessage.buf b =>
    let p :=
      match ppid with
      | some p => p
      | none => if b.length > 0 then 53 else 57
    Except.ok (p,
      if p = 56 then DataMessage.str " "
      else if p = 57 then DataMessage.buf [0]
      else DataMessage.buf b)

/-- Whether a `send()` outcome delivered an empty payload to the payload
channel (a thrown TypeError delivers nothing). -/
def sentEmptyPayload : Except String (Nat × DataMessage) → Bool
  | Except.ok (_, m) => m.isEmpty
  | Except.error _ => false

/-- A freshly constructed Transport: the initial field values of the class
declaration (src/unnamed/part_002, lines 157-195): not closed, empty
registries, no CNAME, MID counter 0, no stream-id buffer, cursor 0; `kind`
and the `sctpParameters.MIS` value come from the subclass data. -/
def Transport.initial (kind : TransportKind) (mis : Option Nat) : Transport :=
  { kind := kind
    closed := false
    producers := []
    consumers := []
    dataProducers := []
    dataConsumers := []
    cnameForProducers := none
    nextMidForConsumers := 0
    sctpParametersMIS := mis
    sctpStreamIds := none
    nextSctpStreamId := 0 }

/-- The CNAME value `produce()` ends up storing and writing into the producer
(src/unnamed/part_002, lines 586-604): the transport's existing
`#cnameForProducers` if set, else the producer's own truthy cname, else the
generated random one. -/
def Transport.cnameChoice (s : Transport) (rp : RtpParameters) (generatedCname : String) :
    String :=
  match s.cnameForProducers with
  | some c => c
  | none => rp.truthyCname.getD generatedCname

/-- Scenario state: a WebRtcTransport-backed Transport whose SCTP parameters
carry MIS = 2, before any `consumeData()` call. -/
def sctpDemo0 : Transport :=
  Transport.initial TransportKind.webRtc (some 2)

/-- First `consumeData()` on the MIS = 2 transport. -/
def sctpDemo1 : ConsumeDataOutcome :=
  sctpDemo0.consumeData "dp" (fun _ => some ()) true "dc1"

/-- Second `consumeData()`. -/
def sctpDemo2 : ConsumeDataOutcome :=
  sctpDemo1.state.consumeData "dp" (fun _ => some ()) true "dc2"

/-- Third `consumeData()` with both stream ids taken. -/
def sctpDemo3 : ConsumeDataOutcome :=
  sctpDemo2.state.consumeData "dp" (fun _ => some ()) true "dc3"

/-- The state after the first DataConsumer closes (freeing stream id 0). -/
def sctpDemoFreed : Transport :=
  sctpDemo2.state.freeSctpStreamId 0 "dc1"

/-- `consumeData()` after the free: may reuse the freed id. -/
def sctpDemo4 : ConsumeDataOutcome :=
  sctpDemoFreed.consumeData "dp" (fun _ => some ()) true "dc4"

/-- RTP parameters carrying an explicit RTCP cname, for the CNAME scenario. -/
def cnameDemoParams (c : String) : RtpParameters :=
  { mid := none
    codecs := []
    encodings := some [{ ssrc := none }]
    rtcp := some { cname := some c, reducedSize := none } }

/-- First `produce()` on a fresh non-pipe transport, supplying cname alice. -/
def cnameDemo1 : ProduceOutcome :=
  (Transport.initial TransportKind.webRtc none).produce
    none "audio" (cnameDemoParams "alice") true true true true "p1" "gen1"

/-- Second `produce()` on the same transport, supplying a different cname. -/
def cnameDemo2 : ProduceOutcome :=
  cnameDemo1.state.produce
    none "audio" (cnameDemoParams "bob") true true true true "p2" "gen2"

/-- A Producer for the `consume()` scenarios: its consumable parameters come
from the spec-modelled transform. -/
def midDemoProducer : ProducerModel :=
  { producerId := "p"
    kind := "audio"
    rtpParameters := cnameDemoParams "x"
    consumableRtpParameters := getConsumableRtpParameters (cnameDemoParams "x") }

/-- A transport whose MID counter is one below the wrap bound. -/
def midDemo0 : Transport :=
  { Transport.initial TransportKind.webRtc none with nextMidForConsumers := 99999999 }

/-- Auto-MID `consume()` at counter 99999999: issues that value and wraps. -/
def midDemo1 : ConsumeOutcome :=
  midDemo0.consume "p" none false true (fun _ => some midDemoProducer) true true "c1"

/-- The next auto-MID `consume()`: allocation resumes at zero. -/
def midDemo2 : ConsumeOutcome :=
  midDemo1.state.consume "p" none false true (fun _ => some midDemoProducer) true true "c2"

/-- Scenario state for the close cascade: an open transport owning one child of
each kind. -/
def closeDemo : Transport :=
  { Transport.initial TransportKind.webRtc (some 2) with
    producers := [{ cid := "p1", closed := false }]
    consumers := [{ cid := "c1", closed := false }]
    dataProducers := [{ cid := "dp1", closed := false }]
    dataConsumers := [{ cid := "dc1", closed := false }] }

/-- Scenario state: an open PlainTransport with a live SCTP association. -/
def plainDemo : PlainTransport :=
  { base := Transport.initial TransportKind.plain (some 2)
    sctpState := some SctpState.new }

/-- Scenario state: an open WebRtcTransport in mid-session. -/
def webRtcDemo : WebRtcTransport :=
  { base := Transport.initial TransportKind.webRtc (some 2)
    iceState := IceState.connected
    iceSelectedTuple := some ()
    dtlsState := DtlsState.connected
    sctpState := some SctpState.connected }

/-- The encodings of the Producer a `produce()` call registered (`none` when
the call failed). -/
def ProduceOutcome.producedEncodings (o : ProduceOutcome) :
    Option (Option (List RtpEncoding)) :=
  match o.result with
  | Except.ok p => some p.rtpParameters.encodings
  | Except.error _ => none

/-- The encodings of the consumable parameters a `produce()` call derived
(`none` when the call failed). -/
def ProduceOutcome.producedConsumableEncodings (o : ProduceOutcome) :
    Option (Option (List RtpEncoding)) :=
  match o.result with
  | Except.ok p => some p.consumableRtpParameters.encodings
  | Except.error _ => none

/-- The RTCP section of the Producer a `produce()` call registered (`none`
when the call failed). -/
def ProduceOutcome.producedRtcp (o : ProduceOutcome) : Option (Option RtcpParameters) :=
  match o.result with
  | Except.ok p => some p.rtpParameters.rtcp
  | Except.error _ => none

/-- The CNAME carried by the Producer a `produce()` call registered (`none`
when the call failed; `some none` for a producer without an RTCP cname). -/
def ProduceOutcome.producedCname (o : ProduceOutcome) : Option (Option String) :=
  match o.result with
  | Except.ok p =>
    match p.rtpParameters.rtcp with
    | some r => some r.cname
    | none => some none
  | Except.error _ => none

/-- The MID of the Consumer a `consume()` call registered (`none` when the
call failed; `some none` for a consumer with no MID assigned). -/
def ConsumeOutcome.consumedMid (o : ConsumeOutcome) : Option (Option String) :=
  match o.result with
  | Except.ok c => some c.rtpParameters.mid
  | Except.error _ => none

/-- In the event list of a producer-close loop only `atProducerClose` events
occur. -/
theorem count_map_atProducerClose (l : List Child) (e : TransportEvent)
    (h : ∀ id, e ≠ TransportEvent.atProducerClose id) :
    (l.map (fun p => TransportEvent.atProducerClose p.cid)).count e = 0 := by
  rw [List.count_eq_zero]
  intro hmem
  rcases List.mem_map.mp hmem with ⟨p, _, hp⟩
  exact h p.cid hp.symm

/-- In the event list of a data-producer-close loop only `atDataProducerClose`
events occur. -/
theorem count_map_atDataProducerClose (l : List Child) (e : TransportEvent)
    (h : ∀ id, e ≠ TransportEvent.atDataProducerClose id) :
    (l.map (fun p => TransportEvent.atDataProducerClose p.cid)).count e = 0 := by
  rw [List.count_eq_zero]
  intro hmem
  rcases List.mem_map.mp hmem with ⟨p, _, hp⟩
  exact h p.cid hp.symm

/-- C2: `closed` is one-way and every closing operation is idempotent: for
every Transport, DataProducer, RtpObserver and WebRtcServer, after any closing
trigger the resource is closed, and applying any closing trigger to an
already-closed resource is a silent no-op — the state is returned unchanged
and no events (in particular no engine request) are emitted. -/
theorem closed_oneway_and_close_idempotent :
    (∀ (t₁ t₂ : CloseTrigger) (s : Transport),
      (Transport.applyCloseTrigger t₁ s).state.closed = true
        ∧ Transport.applyCloseTrigger t₂ (Transport.applyCloseTrigger t₁ s).state
            = ⟨(Transport.applyCloseTrigger t₁ s).state, [], [], [], [], []⟩)
    ∧ (∀ (t₁ t₂ : DataProducerCloseTrigger) (s : DataProducer),
      (DataProducer.applyCloseTrigger t₁ s).1.closed = true
        ∧ DataProducer.applyCloseTrigger t₂ (DataProducer.applyCloseTrigger t₁ s).1
            = ((DataProducer.applyCloseTrigger t₁ s).1, []))
    ∧ (∀ (t₁ t₂ : RtpObserverCloseTrigger) (s : RtpObserver),
      (RtpObserver.applyCloseTrigger t₁ s).1.closed = true
        ∧ RtpObserver.applyCloseTrigger t₂ (RtpObserver.applyCloseTrigger t₁ s).1
            = ((RtpObserver.applyCloseTrigger t₁ s).1, []))
    ∧ (∀ (t₁ t₂ : WebRtcServerCloseTrigger) (s : WebRtcServer),
      (WebRtcServer.applyCloseTrigger t₁ s).1.closed = true
        ∧ WebRtcServer.applyCloseTrigger t₂ (WebRtcServer.applyCloseTrigger t₁ s).1
            = ((WebRtcServer.applyCloseTrigger t₁ s).1, [])) := by
  refine ⟨?_, ?_, ?_, ?_⟩
  · intro t₁ t₂ s
    cases t₁ <;> cases t₂ <;> rcases hcl : s.closed <;>
      simp [Transport.applyCloseTrigger, Transport.close, Transport.routerClosed,
        Transport.listenServerClosed, hcl]
  · intro t₁ t₂ s
    cases t₁ <;> cases t₂ <;> rcases hcl : s.closed <;>
      simp [DataProducer.applyCloseTrigger, DataProducer.close,
        DataProducer.transportClosed, hcl]
  · intro t₁ t₂ s
    cases t₁ <;> cases t₂ <;> rcases hcl : s.closed <;>
      simp [RtpObserver.applyCloseTrigger, RtpObserver.close,
        RtpObserver.routerClosed, hcl]
  · intro t₁ t₂ s
    cases t₁ <;> cases t₂ <;> rcases hcl : s.closed <;>
      simp [WebRtcServer.applyCloseTrigger, WebRtcServer.close,
        WebRtcServer.workerClosed, hcl]

/-- C9: `RtpObserver.pause()` sets `paused` only after the engine request
resolves (an unchanged state on rejection) and emits the observer `'pause'`
event only when the observer was not paused before; `resume()` is symmetric,
so pausing an already-paused or resuming an already-resumed observer emits no
observer event. -/
theorem rtpObserver_pause_resume_events (s : RtpObserver) :
    ((s.pause true).state.paused = true
      ∧ (s.pause true).events
          = (if s.paused then [] else [RtpObserverEvent.observerPause]))
    ∧ ((s.pause false).state = s ∧ (s.pause false).events = [])
    ∧ ((s.resume true).state.paused = false
      ∧ (s.resume true).events
          = (if s.paused then [RtpObserverEvent.observerResume] else []))
    ∧ ((s.resume false).state = s ∧ (s.resume false).events = []) := by
  simp [RtpObserver.pause, RtpObserver.resume]

/-- C10 counterexample: `send()` with an empty string and an explicitly
supplied ppid of 51 issues the payload-channel notification with the empty
string — an empty payload does go on the wire, so the claim's universal
"an empty payload is never sent" fails. -/
theorem dataProducer_send_empty_payload_counterexample :
    DataProducer.send (DataMessage.str "") (some 51)
        = Except.ok (51, DataMessage.str "")
      ∧ sentEmptyPayload (DataProducer.send (DataMessage.str "") (some 51)) = true := by
  constructor
  · rfl
  · rfl

/-- C10 (amended): `send()` throws a TypeError unless the message is a string
or a Buffer; a non-number ppid defaults to 51 / 56 for a non-empty / empty
string and 53 / 57 for a non-empty / empty Buffer; for ppid 56 the message is
replaced by a single-space string and for ppid 57 by a one-byte buffer before
the payload-channel notification — so a defaulted-ppid call never sends an
empty payload (an explicitly supplied ppid outside 56/57 can still send an
empty message as-is). -/
theorem dataProducer_send_ppid_defaults (s : String) (b : List Nat) (p : Nat) :
    (DataProducer.send DataMessage.other (some p)
        = Except.error "message must be a string or a Buffer"
      ∧ DataProducer.send DataMessage.other none
          = Except.error "message must be a string or a Buffer")
    ∧ (DataProducer.send (DataMessage.str s) none
        = if s.length > 0 then Except.ok (51, DataMessage.str s)
          else Except.ok (56, DataMessage.str " "))
    ∧ (DataProducer.send (DataMessage.buf b) none
        = if b.length > 0 then Except.ok (53, DataMessage.buf b)
          else Except.ok (57, DataMessage.buf [0]))
    ∧ (DataProducer.send (DataMessage.str s) (some 56) = Except.ok (56, DataMessage.str " ")
      ∧ DataProducer.send (DataMessage.buf b) (some 56) = Except.ok (56, DataMessage.str " "))
    ∧ (DataProducer.send (DataMessage.str s) (some 57) = Except.ok (57, DataMessage.buf [0])
      ∧ DataProducer.send (DataMessage.buf b) (some 57) = Except.ok (57, DataMessage.buf [0]))
    ∧ (sentEmptyPayload (DataProducer.send (DataMessage.str s) none) = false
      ∧ sentEmptyPayload (DataProducer.send (DataMessage.buf b) none) = false) := by
  refine ⟨⟨rfl, rfl⟩, ?_, ?_, ⟨rfl, rfl⟩, ⟨rfl, rfl⟩, ?_, ?_⟩
  · by_cases hs : s.length > 0 <;> simp [DataProducer.send, hs]
  · by_cases hb : b.length > 0 <;> simp [DataProducer.send, hb]
  · by_cases hs : s.length > 0
    · have hne : s.length ≠ 0 := Nat.pos_iff_ne_zero.mp hs
      simp [DataProducer.send, sentEmptyPayload, DataMessage.isEmpty, hs, hne]
    · simp [DataProducer.send, sentEmptyPayload, DataMessage.isEmpty, hs]
      decide
  · by_cases hb : b.length > 0
    · have hne : b.length ≠ 0 := Nat.pos_iff_ne_zero.mp hb
      simp [DataProducer.send, sentEmptyPayload, DataMessage.isEmpty, hb, hne]
    · simp [DataProducer.send, sentEmptyPayload, DataMessage.isEmpty, hb]

/-- C1: the three close triggers of an open Transport reach the same terminal
state — closed, with all four registries emptied and every detached child
closed — and differ only in the notifications: `close()` issues the engine
close request, emits `'@close'` and a per-producer `'@producerclose'` /
`'@dataproducerclose'`; `routerClosed()` issues no engine request and none of
those private signals; `listenServerClosed()` emits `'@listenserverclose'`
but no `'@close'` and no engine request; each trigger emits the public
observer `'close'` exactly once and its private signals at most once (no
party is notified twice). -/
theorem transport_close_triggers (s : Transport) (h : s.closed = false) :
    (∀ t : CloseTrigger,
      (Transport.applyCloseTrigger t s).state
          = { s with
              closed := true
              producers := []
              consumers := []
              dataProducers := []
              dataConsumers := [] }
        ∧ (∀ c ∈ (Transport.applyCloseTrigger t s).detachedProducers, c.closed = true)
        ∧ (∀ c ∈ (Transport.applyCloseTrigger t s).detachedConsumers, c.closed = true)
        ∧ (∀ c ∈ (Transport.applyCloseTrigger t s).detachedDataProducers, c.closed = true)
        ∧ (∀ c ∈ (Transport.applyCloseTrigger t s).detachedDataConsumers, c.closed = true)
        ∧ (Transport.applyCloseTrigger t s).events.count TransportEvent.observerClose = 1
        ∧ (Transport.applyCloseTrigger t s).events.count TransportEvent.atClose ≤ 1
        ∧ (Transport.applyCloseTrigger t s).events.count TransportEvent.engineCloseRequest ≤ 1)
    ∧ (s.close.events.count TransportEvent.engineCloseRequest = 1
      ∧ s.close.events.count TransportEvent.atClose = 1
      ∧ (∀ p ∈ s.producers, TransportEvent.atProducerClose p.cid ∈ s.close.events)
      ∧ (∀ p ∈ s.dataProducers, TransportEvent.atDataProducerClose p.cid ∈ s.close.events)
      ∧ TransportEvent.atListenServerClose ∉ s.close.events
      ∧ TransportEvent.pubRouterClose ∉ s.close.events
      ∧ TransportEvent.pubListenServerClose ∉ s.close.events)
    ∧ (s.routerClosed.events = [TransportEvent.pubRouterClose, TransportEvent.observerClose]
      ∧ TransportEvent.atClose ∉ s.routerClosed.events
      ∧ TransportEvent.engineCloseRequest ∉ s.routerClosed.events
      ∧ (∀ i, TransportEvent.atProducerClose i ∉ s.routerClosed.events)
      ∧ (∀ i, TransportEvent.atDataProducerClose i ∉ s.routerClosed.events))
    ∧ (s.listenServerClosed.events
        = [TransportEvent.atListenServerClose, TransportEvent.pubListenServerClose,
            TransportEvent.observerClose]
      ∧ TransportEvent.atClose ∉ s.listenServerClosed.events
      ∧ TransportEvent.engineCloseRequest ∉ s.listenServerClosed.events
      ∧ (∀ i, TransportEvent.atProducerClose i ∉ s.listenServerClosed.events)
      ∧ (∀ i, TransportEvent.atDataProducerClose i ∉ s.listenServerClosed.events)) := by
  refine ⟨?_, ?_, ?_, ?_⟩
  · intro t
    cases t <;>
      simp [Transport.applyCloseTrigger, Transport.close, Transport.routerClosed,
        Transport.listenServerClosed, h, Child.transportClosed, List.count_append,
        List.count_cons, List.count_singleton, count_map_atProducerClose,
        count_map_atDataProducerClose, List.count_eq_zero]
  · simp [Transport.close, h, List.count_append, List.count_cons,
      List.count_singleton, count_map_atProducerClose, count_map_atDataProducerClose,
      List.mem_map, List.count_eq_zero]
    exact ⟨fun p hp => ⟨p, hp, rfl⟩, fun p hp => ⟨p, hp, rfl⟩⟩
  · simp [Transport.routerClosed, h]
  · simp [Transport.listenServerClosed, h]

/-- C1 witness: the three triggers on a concrete open transport owning one
child of each kind. -/
theorem transport_close_triggers_witness :
    closeDemo.closed = false
      ∧ closeDemo.close.events
          = [TransportEvent.engineCloseRequest, TransportEvent.atProducerClose "p1",
              TransportEvent.atDataProducerClose "dp1", TransportEvent.atClose,
              TransportEvent.observerClose]
      ∧ (Transport.applyCloseTrigger CloseTrigger.router closeDemo).state
          = (Transport.applyCloseTrigger CloseTrigger.listenServer closeDemo).state := by
  refine ⟨rfl, ?_, ?_⟩
  · have hth := transport_close_triggers closeDemo rfl
    decide
  · have hth := (transport_close_triggers closeDemo rfl).1
    have h1 := (hth CloseTrigger.router).1
    have h2 := (hth CloseTrigger.listenServer).1
    rw [h1, h2]

/-- C8 counterexample: a PlainTransport with a live SCTP association
(`sctpState = 'new'`) closed through the shared-resource trigger — the
inherited `Transport.listenServerClosed()`, which `PlainTransport` does not
override — ends up closed but with `sctpState` still `'new'`, not `'closed'`:
the claim's "on a PlainTransport, sctpState becomes closed" fails for the
third close trigger. -/
theorem plainTransport_listenServer_keeps_sctpState :
    plainDemo.base.closed = false
      ∧ plainDemo.sctpState = some SctpState.new
      ∧ plainDemo.listenServerClosed.1.base.closed = true
      ∧ plainDemo.listenServerClosed.1.sctpState = some SctpState.new := by
  refine ⟨rfl, rfl, rfl, rfl⟩

/-- C8 (amended): on a WebRtcTransport every one of the three close triggers
(`close()`, `routerClosed()`, `webRtcServerClosed()`) forces the mirrors to
their terminal values — `iceState` and `dtlsState` become `'closed'`, the
selected tuple is dropped, and `sctpState` becomes `'closed'` exactly when
SCTP was negotiated (it stays absent otherwise); on a PlainTransport this
holds for `close()` and `routerClosed()` — the only triggers with an
overridden mirror update, the inherited `listenServerClosed()` never being
invoked on plain transports since listen servers exist only for WebRTC. -/
theorem transport_close_forces_state_mirrors (w : WebRtcTransport)
    (p : PlainTransport) (t : CloseTrigger)
    (hw : w.base.closed = false) (hp : p.base.closed = false) :
    ((WebRtcTransport.applyCloseTrigger t w).1.iceState = IceState.closed
      ∧ (WebRtcTransport.applyCloseTrigger t w).1.iceSelectedTuple = none
      ∧ (WebRtcTransport.applyCloseTrigger t w).1.dtlsState = DtlsState.closed
      ∧ (WebRtcTransport.applyCloseTrigger t w).1.sctpState
          = w.sctpState.map (fun _ => SctpState.closed)
      ∧ (WebRtcTransport.applyCloseTrigger t w).1.base.closed = true)
    ∧ (p.close.1.sctpState = p.sctpState.map (fun _ => SctpState.closed)
      ∧ p.close.1.base.closed = true
      ∧ p.routerClosed.1.sctpState = p.sctpState.map (fun _ => SctpState.closed)
      ∧ p.routerClosed.1.base.closed = true) := by
  constructor
  · cases t <;>
      simp [WebRtcTransport.applyCloseTrigger, WebRtcTransport.close,
        WebRtcTransport.routerClosed, WebRtcTransport.webRtcServerClosed,
        WebRtcTransport.mirrorsToClosed, Transport.close, Transport.routerClosed,
        Transport.listenServerClosed, hw]
  · simp [PlainTransport.close, PlainTransport.routerClosed, Transport.close,
      Transport.routerClosed, hp]

/-- C8 witness: the amended claim at the concrete mid-session transports. -/
theorem transport_close_forces_state_mirrors_witness :
    webRtcDemo.base.closed = false ∧ plainDemo.base.closed = false
      ∧ (WebRtcTransport.applyCloseTrigger CloseTrigger.listenServer webRtcDemo).1.sctpState
          = some SctpState.closed
      ∧ plainDemo.close.1.sctpState = some SctpState.closed := by
  refine ⟨rfl, rfl, ?_, ?_⟩
  · have hmain :=
      (transport_close_forces_state_mirrors webRtcDemo plainDemo
        CloseTrigger.listenServer rfl rfl).1.2.2.2.1
    rw [hmain]
    rfl
  · have hmain :=
      (transport_close_forces_state_mirrors webRtcDemo plainDemo
        CloseTrigger.direct rfl rfl).2.1
    rw [hmain]
    rfl

/-- If the scan loop returns an id, that id is the first free slot in scan
order: it lies `k` steps past the cursor for some `k` below the remaining
fuel, its slot is free, and every slot strictly between the cursor position
and it is taken. -/
theorem sctpScan_some_first_free (ids : List Bool) (next : Nat) :
    ∀ fuel idx id, sctpScan ids next idx fuel = some id →
      ∃ k, idx ≤ k ∧ k < idx + fuel ∧ id = (next + k) % ids.length
        ∧ ids.getD id true = false
        ∧ ∀ j, idx ≤ j → j < k →
            ids.getD ((next + j) % ids.length) true = true := by
  intro fuel
  induction fuel with
  | zero =>
    intro idx id hsc
    simp [sctpScan] at hsc
  | succ fuel ih =>
    intro idx id hsc
    rw [sctpScan] at hsc
    cases htaken : ids.getD ((next + idx) % ids.length) true with
    | true =>
      rw [htaken] at hsc
      simp only [if_true] at hsc
      obtain ⟨k, hk1, hk2, hk3, hk4, hk5⟩ := ih (idx + 1) id hsc
      refine ⟨k, by omega, by omega, hk3, hk4, ?_⟩
      intro j hj1 hj2
      rcases Nat.eq_or_lt_of_le hj1 with he | hl
      · rw [← he]
        exact htaken
      · exact hk5 j hl hj2
    | false =>
      rw [htaken] at hsc
      simp at hsc
      refine ⟨idx, Nat.le_refl idx, by omega, hsc.symm, ?_, ?_⟩
      · rw [← hsc]
        exact htaken
      · intro j hj1 hj2
        omega

/-- If every in-range slot is taken, the scan loop finds nothing. -/
theorem sctpScan_none_of_all_taken (ids : List Bool) (next : Nat)
    (hall : ∀ i, i < ids.length → ids.getD i true = true) :
    ∀ fuel idx, sctpScan ids next idx fuel = none := by
  intro fuel
  induction fuel with
  | zero =>
    intro idx
    simp [sctpScan]
  | succ fuel ih =>
    intro idx
    rw [sctpScan]
    have htaken : ids.getD ((next + idx) % ids.length) true = true := by
      rcases Nat.eq_zero_or_pos ids.length with h0 | hpos
      · rcases List.length_eq_zero.mp h0 with rfl
        rfl
      · exact hall _ (Nat.mod_lt _ hpos)
    simp only [htaken, if_true]
    exact ih (idx + 1)

/-- C3: the SCTP stream-id allocator.  (i) The bitmap is created lazily, sized
MIS, on the first allocation.  (ii) A successful allocation returns an
in-range id whose slot is free (not held by any live DataConsumer of the
transport), reached by scanning forward from the rotating cursor modulo the
bitmap size past only taken slots, and the cursor advances to the returned id
plus one.  (iii) When every slot is taken the allocator throws.  (iv) In the
MIS = 2 scenario the first two `consumeData()` calls claim ids 0 and 1, the
third fails with `no sctpStreamId available`, and after the first DataConsumer
closes (freeing id 0) a subsequent `consumeData()` reuses id 0. -/
theorem sctp_stream_id_allocator (s : Transport) (m : Nat) (ids : List Bool)
    (id : Nat) (s' : Transport)
    (hm : s.sctpParametersMIS = some m) (hids : s.sctpStreamIds = some ids) :
    (s.sctpStreamIds = none →
      ((Transport.getNextSctpStreamId { s with sctpStreamIds := none }).2).sctpStreamIds
        = some (List.replicate m false))
    ∧ (s.getNextSctpStreamId = (Except.ok id, s') →
      id < ids.length
        ∧ ids.getD id true = false
        ∧ s'.nextSctpStreamId = id + 1
        ∧ s'.sctpStreamIds = some ids
        ∧ ∃ k, k < ids.length ∧ id = (s.nextSctpStreamId + k) % ids.length
            ∧ ∀ j, j < k →
                ids.getD ((s.nextSctpStreamId + j) % ids.length) true = true)
    ∧ ((∀ i, i < ids.length → ids.getD i true = true) →
      (s.getNextSctpStreamId).1 = Except.error "no sctpStreamId available")
    ∧ (sctpDemo0.sctpStreamIds = none
      ∧ sctpDemo1.result = Except.ok { dataConsumerId := "dc1", sctpStreamId := some 0 }
      ∧ sctpDemo1.state.sctpStreamIds = some [true, false]
      ∧ sctpDemo2.result = Except.ok { dataConsumerId := "dc2", sctpStreamId := some 1 }
      ∧ sctpDemo3.result = Except.error "no sctpStreamId available"
      ∧ sctpDemoFreed.sctpStreamIds = some [false, true]
      ∧ sctpDemo4.result = Except.ok { dataConsumerId := "dc4", sctpStreamId := some 0 }) := by
  refine ⟨?_, ?_, ?_, by decide⟩
  · intro hnone
    rw [hids] at hnone
    cases hnone
  · intro hok
    rw [Transport.getNextSctpStreamId, hm] at hok
    simp only [hids, Option.getD_some] at hok
    rcases hsc : sctpScan ids s.nextSctpStreamId 0 ids.length with _ | v
    · rw [hsc] at hok
      cases hok
    · rw [hsc] at hok
      have hv : v = id := by
        have hfst := congrArg Prod.fst hok
        simpa using hfst
      have hs' : s' = { s with sctpStreamIds := some ids, nextSctpStreamId := v + 1 } := by
        have hsnd := congrArg Prod.snd hok
        simpa [hm] using hsnd.symm
      obtain ⟨k, hk0, hkf, hkid, hkfree, hkprev⟩ :=
        sctpScan_some_first_free ids s.nextSctpStreamId ids.length 0 v hsc
      subst hv
      have hlen : 0 < ids.length := by omega
      refine ⟨?_, hkfree, ?_, ?_, ⟨k, by omega, hkid, ?_⟩⟩
      · rw [hkid]
        exact Nat.mod_lt _ hlen
      · rw [hs']
      · rw [hs']
      · intro j hj
        exact hkprev j (Nat.zero_le j) hj
  · intro hall
    rw [Transport.getNextSctpStreamId, hm]
    simp only [hids, Option.getD_some]
    rw [sctpScan_none_of_all_taken ids s.nextSctpStreamId hall ids.length 0]

/-- C3 witness: the allocator spec applied to the concrete MIS = 2 transport
with both stream ids taken: exhaustion fires, and the recorded scenario
results hold. -/
theorem sctp_stream_id_allocator_witness :
    (sctpDemo2.state.getNextSctpStreamId).1 = Except.error "no sctpStreamId available"
      ∧ sctpDemo1.result
          = Except.ok { dataConsumerId := "dc1", sctpStreamId := some 0 }
      ∧ sctpDemo4.result
          = Except.ok { dataConsumerId := "dc4", sctpStreamId := some 0 } := by
  have h := sctp_stream_id_allocator sctpDemo2.state 2 [true, true] 0 sctpDemo2.state
    rfl rfl
  exact ⟨h.2.2.1 (by decide), h.2.2.2.2.1, h.2.2.2.2.2.2.2.2.2⟩

/-- C4: `produce()` with an explicit id already registered on the Transport
fails synchronously with the duplicate-id TypeError — no engine request, no
state change, no second Producer; `consume()` whose Router-supplied lookup
does not resolve the `producerId` fails synchronously with the not-found
error — no engine request, no state change, no Consumer registered. -/
theorem produce_consume_sync_failures (s : Transport) (i kind : String)
    (rp : RtpParameters) (v m c e : Bool) (gid gcn : String)
    (hi : i ≠ "") (hhas : s.producers.any (fun p => p.cid = i) = true) :
    s.produce (some i) kind rp v m c e gid gcn
        = ⟨Except.error ProduceError.duplicateId, s, []⟩
    ∧ (∀ (pid : String) (mid : Option String) (pipe : Bool)
        (lookup : String → Option ProducerModel) (n e2 : Bool) (gcid : String),
        pid ≠ "" → lookup pid = none →
        s.consume pid mid pipe true lookup n e2 gcid
          = ⟨Except.error ConsumeError.producerNotFound, s, [], false⟩) := by
  constructor
  · simp [Transport.produce, Transport.produceDuplicateCheck, hi, hhas]
  · intro pid mid pipe lookup n e2 gcid hpid hlookup
    simp [Transport.consume, hpid, hlookup]

/-- C4 witness: duplicate produce and unresolved consume on the concrete
transport owning producer p1. -/
theorem produce_consume_sync_failures_witness :
    ("p1" ≠ "" ∧ closeDemo.producers.any (fun p => p.cid = "p1") = true)
      ∧ closeDemo.produce (some "p1") "audio" (cnameDemoParams "z") true true true true
          "g" "gc" = ⟨Except.error ProduceError.duplicateId, closeDemo, []⟩
      ∧ closeDemo.consume "nope" none false true (fun _ => none) true true "c"
          = ⟨Except.error ConsumeError.producerNotFound, closeDemo, [], false⟩ := by
  have h := produce_consume_sync_failures closeDemo "p1" "audio" (cnameDemoParams "z")
    true true true true "g" "gc" (by decide) (by decide)
  exact ⟨⟨by decide, by decide⟩, h.1, h.2 "nope" none false (fun _ => none) true true "c"
    (by decide) rfl⟩

/-- Normalizing encodings leaves the RTCP section untouched. -/
theorem normalizeEncodings_rtcp (p : RtpParameters) :
    p.normalizeEncodings.rtcp = p.rtcp := by
  rcases p with ⟨mid, codecs, enc, rtcp⟩
  rcases enc with _ | ⟨_ | ⟨a, l⟩⟩ <;> rfl

/-- Normalizing encodings leaves the truthy cname untouched. -/
theorem normalizeEncodings_truthyCname (p : RtpParameters) :
    p.normalizeEncodings.truthyCname = p.truthyCname := by
  unfold RtpParameters.truthyCname
  rw [normalizeEncodings_rtcp]

/-- A missing or empty encodings list normalizes to the single default
encoding entry. -/
theorem normalizeEncodings_of_empty (p : RtpParameters)
    (h : p.encodings = none ∨ p.encodings = some []) :
    p.normalizeEncodings.encodings = some [{ ssrc := none }] := by
  rcases p with ⟨mid, codecs, enc, rtcp⟩
  rcases h with h | h <;> simp only at h <;> subst h <;> rfl

/-- C7: a `produce()` call whose rtpParameters carry missing or empty
encodings is normalized — before the mapping / consumable-derivation steps —
to exactly one default encoding entry, so the registered producer's RTP
parameters and its (spec-modelled) consumable parameters contain exactly one
encoding entry. -/
theorem produce_normalizes_empty_encodings (s : Transport) (id : Option String)
    (kind : String) (rp : RtpParameters) (gid gcn : String)
    (hdup : s.produceDuplicateCheck id = false)
    (hkind : kind = "audio" ∨ kind = "video")
    (henc : rp.encodings = none ∨ rp.encodings = some []) :
    (s.produce id kind rp true true true true gid gcn).producedEncodings
        = some (some [{ ssrc := none }])
      ∧ (s.produce id kind rp true true true true gid gcn).producedConsumableEncodings
        = some (some [{ ssrc := none }]) := by
  have hnorm := normalizeEncodings_of_empty rp henc
  have hkind' : (kind = "audio" ∨ kind = "video") = True := by simp [hkind]
  by_cases hk : s.kind = TransportKind.pipe
  · constructor <;>
      simp [Transport.produce, ProduceOutcome.producedEncodings,
        ProduceOutcome.producedConsumableEncodings, getConsumableRtpParameters,
        hdup, hkind', hk, hnorm]
  · rcases hc : s.cnameForProducers with _ | c
    · rcases ht : rp.normalizeEncodings.truthyCname with _ | tc <;>
        constructor <;>
          simp [Transport.produce, ProduceOutcome.producedEncodings,
            ProduceOutcome.producedConsumableEncodings, getConsumableRtpParameters,
            hdup, hkind', hk, hc, ht, hnorm]
    · constructor <;>
        simp [Transport.produce, ProduceOutcome.producedEncodings,
          ProduceOutcome.producedConsumableEncodings, getConsumableRtpParameters,
          hdup, hkind', hk, hc, hnorm]

/-- C7 witness: producing with no encodings on a fresh transport yields a
producer whose parameters and consumable parameters hold exactly the default
encoding entry. -/
theorem produce_normalizes_empty_encodings_witness :
    (Transport.initial TransportKind.webRtc none).produceDuplicateCheck none = false
      ∧ ((Transport.initial TransportKind.webRtc none).produce none "video"
          { mid := none, codecs := [], encodings := none, rtcp := none }
          true true true true "p" "g").producedEncodings = some (some [{ ssrc := none }])
      ∧ ((Transport.initial TransportKind.webRtc none).produce none "video"
          { mid := none, codecs := [], encodings := none, rtcp := none }
          true true true true "p" "g").producedConsumableEncodings
        = some (some [{ ssrc := none }]) := by
  have h := produce_normalizes_empty_encodings (Transport.initial TransportKind.webRtc none)
    none "video" { mid := none, codecs := [], encodings := none, rtcp := none } "p" "g"
    rfl (Or.inr rfl) (Or.inl rfl)
  exact ⟨rfl, h.1, h.2⟩

/-- C5: CNAME policy of `produce()`.  On a non-pipe Transport every successful
`produce()` call registers a producer whose RTCP cname is the single
transport-wide value `cnameChoice` — the already-fixed value when one exists,
otherwise the caller's own (truthy) cname, otherwise the freshly generated
random value — and stores that value on the transport, so a second `produce()`
with a different cname still gets the first call's value; on a pipe Transport
the producer's RTCP section is left untouched and no transport CNAME is
stored.  The concrete scenario: producer one supplies alice, producer two
supplies bob, both end up carrying alice. -/
theorem produce_cname_policy (s : Transport) (id : Option String) (kind : String)
    (rp : RtpParameters) (gid gcn : String)
    (hdup : s.produceDuplicateCheck id = false)
    (hkind : kind = "audio" ∨ kind = "video") :
    (s.kind ≠ TransportKind.pipe →
      (s.produce id kind rp true true true true gid gcn).producedCname
          = some (some (s.cnameChoice rp gcn))
        ∧ (s.produce id kind rp true true true true gid gcn).state.cnameForProducers
          = some (s.cnameChoice rp gcn))
    ∧ (∀ c, s.cnameForProducers = some c → s.cnameChoice rp gcn = c)
    ∧ (s.cnameForProducers = none → s.cnameChoice rp gcn = rp.truthyCname.getD gcn)
    ∧ (s.kind = TransportKind.pipe →
      (s.produce id kind rp true true true true gid gcn).producedRtcp = some rp.rtcp
        ∧ (s.produce id kind rp true true true true gid gcn).state.cnameForProducers
          = s.cnameForProducers)
    ∧ (cnameDemo1.producedCname = some (some "alice")
      ∧ cnameDemo2.producedCname = some (some "alice")
      ∧ cnameDemo1.state.cnameForProducers = some "alice") := by
  have hkind' : (kind = "audio" ∨ kind = "video") = True := by simp [hkind]
  refine ⟨?_, ?_, ?_, ?_, by decide⟩
  · intro hk
    rcases hc : s.cnameForProducers with _ | c
    · rcases ht : rp.truthyCname with _ | tc <;>
        constructor <;>
          simp [Transport.produce, ProduceOutcome.producedCname, Transport.cnameChoice,
            hdup, hkind', hk, hc, ht, normalizeEncodings_truthyCname]
    · constructor <;>
        simp [Transport.produce, ProduceOutcome.producedCname, Transport.cnameChoice,
          hdup, hkind', hk, hc, normalizeEncodings_truthyCname]
  · intro c hc
    simp [Transport.cnameChoice, hc]
  · intro hc
    simp [Transport.cnameChoice, hc]
  · intro hk
    constructor <;>
      simp [Transport.produce, ProduceOutcome.producedRtcp, hdup, hkind', hk,
        normalizeEncodings_rtcp]

/-- C5 witness: the policy applied to the first concrete produce call — its
cname is the caller-supplied alice, which the transport then stores. -/
theorem produce_cname_policy_witness :
    (Transport.initial TransportKind.webRtc none).kind ≠ TransportKind.pipe
      ∧ cnameDemo1.producedCname = some (some "alice")
      ∧ cnameDemo1.state.cnameForProducers = some "alice" := by
  have h := produce_cname_policy (Transport.initial TransportKind.webRtc none) none
    "audio" (cnameDemoParams "alice") "p1" "gen1" rfl (Or.inl rfl)
  exact ⟨by decide, (h.1 (by decide)).1, (h.1 (by decide)).2⟩

/-- C6: MID assignment in `consume()`.  A pipe Consumer gets no MID and the
counter is untouched; a caller-supplied non-empty mid is used verbatim with
the counter untouched; otherwise the counter value is issued formatted as a
string and the counter advances by one — so successive auto-assigned MIDs are
the strictly increasing integers c, c + 1, ... — except that on reaching
100000000 the code logs a warning and resets the counter to 0, so allocation
resumes at "0".  The concrete scenario checks the wrap: at counter 99999999
the issued MID is "99999999" with the warning logged and the counter reset,
and the next call issues "0". -/
theorem consume_mid_allocation (s : Transport) (pid : String)
    (producer : ProducerModel) (lookup : String → Option ProducerModel)
    (gcid : String) (hpid : pid ≠ "") (hlook : lookup pid = some producer) :
    ((s.consume pid none true true lookup true true gcid).consumedMid = some none
      ∧ (s.consume pid none true true lookup true true gcid).state.nextMidForConsumers
          = s.nextMidForConsumers)
    ∧ (∀ m : String, m ≠ "" →
      (s.consume pid (some m) false true lookup true true gcid).consumedMid
          = some (some m)
        ∧ (s.consume pid (some m) false true lookup true true gcid).state.nextMidForConsumers
          = s.nextMidForConsumers)
    ∧ ((s.consume pid none false true lookup true true gcid).consumedMid
          = some (some (toString s.nextMidForConsumers))
      ∧ (s.consume pid none false true lookup true true gcid).state.nextMidForConsumers
          = (if s.nextMidForConsumers + 1 = 100000000 then 0
            else s.nextMidForConsumers + 1)
      ∧ (s.consume pid none false true lookup true true gcid).warnedMaxMid
          = decide (s.nextMidForConsumers + 1 = 100000000))
    ∧ (s.nextMidForConsumers + 1 ≠ 100000000 →
      ((s.consume pid none false true lookup true true gcid).state.consume
          pid none false true lookup true true gcid).consumedMid
        = some (some (toString (s.nextMidForConsumers + 1))))
    ∧ (midDemo1.consumedMid = some (some "99999999")
      ∧ midDemo1.warnedMaxMid = true
      ∧ midDemo1.state.nextMidForConsumers = 0
      ∧ midDemo2.consumedMid = some (some "0")
      ∧ midDemo2.state.nextMidForConsumers = 1) := by
  refine ⟨?_, ?_, ?_, ?_, by decide⟩
  · constructor <;>
      simp [Transport.consume, ConsumeOutcome.consumedMid, hpid, hlook]
  · intro m hm
    constructor <;>
      simp [Transport.consume, ConsumeOutcome.consumedMid, hpid, hlook, hm]
  · refine ⟨?_, ?_, ?_⟩ <;>
      simp [Transport.consume, ConsumeOutcome.consumedMid, hpid, hlook]
  · intro hnw
    simp [Transport.consume, ConsumeOutcome.consumedMid, hpid, hlook, hnw]

/-- C6 witness: the MID spec applied at the wrap boundary, plus an ordinary
strictly-increasing step from counter 0. -/
theorem consume_mid_allocation_witness :
    ("p" ≠ "" ∧ (fun _ : String => some midDemoProducer) "p" = some midDemoProducer)
      ∧ midDemo1.consumedMid = some (some "99999999")
      ∧ midDemo2.consumedMid = some (some "0")
      ∧ ((Transport.initial TransportKind.webRtc none).consume "p" none false true
          (fun _ => some midDemoProducer) true true "c").consumedMid
        = some (some "0")
      ∧ (((Transport.initial TransportKind.webRtc none).consume "p" none false true
          (fun _ => some midDemoProducer) true true "c").state.consume "p" none false
          true (fun _ => some midDemoProducer) true true "c").consumedMid
        = some (some "1") := by
  have h0 := consume_mid_allocation (Transport.initial TransportKind.webRtc none) "p"
    midDemoProducer (fun _ => some midDemoProducer) "c" (by decide) rfl
  have hw := consume_mid_allocation midDemo0 "p"
    midDemoProducer (fun _ => some midDemoProducer) "c1" (by decide) rfl
  refine ⟨⟨by decide, rfl⟩, hw.2.2.2.2.1, hw.2.2.2.2.2.2.2.1, h0.2.2.1.1, ?_⟩
  have hstep := h0.2.2.2.1 (by decide)
  simpa using hstep
